import Mathlib

/-!
# Verification of the B3313 spherical-surface character controller

Shallow embedding of the spherical-gravity player controller repeated across
the repository's five variants.  The canonical embedding follows
`SphericalPlayer` in `v2.py` (class `Physics` constants, cached surface
normal, force-free movement offset, snap-and-cancel ground collision);
the `SphericalController` variant of `b33134k6.6.25.py` (velocity-force
airborne movement, blend-based grounded movement) is embedded separately
in the `SC` namespace.

Vectors are `Vec3` over the exact reals; `Vec3.normalized` follows the
Panda3D `LVector3.normalized()` semantics used by Ursina: a zero-length
vector normalizes to the zero vector rather than raising or producing NaN.
`round` models Python's `round(x, ndigits)`; Lean's `round` is half-up
while Python's float round is half-even, so no statement below evaluates
rounding at an exact half-way point.
-/

namespace B3313

open Classical

noncomputable section

/-- A 3-component real vector, modelling `ursina.Vec3` (Panda3D `LVector3f`),
with exact real arithmetic in place of 32-bit floats. -/
structure Vec3 where
  x : ℝ
  y : ℝ
  z : ℝ

namespace Vec3

def add (a b : Vec3) : Vec3 := ⟨a.x + b.x, a.y + b.y, a.z + b.z⟩

def sub (a b : Vec3) : Vec3 := ⟨a.x - b.x, a.y - b.y, a.z - b.z⟩

def neg (a : Vec3) : Vec3 := ⟨-a.x, -a.y, -a.z⟩

def smul (r : ℝ) (a : Vec3) : Vec3 := ⟨r * a.x, r * a.y, r * a.z⟩

def zero : Vec3 := ⟨0, 0, 0⟩

instance : Add Vec3 := ⟨add⟩

instance : Sub Vec3 := ⟨sub⟩

instance : Neg Vec3 := ⟨neg⟩

instance : SMul ℝ Vec3 := ⟨smul⟩

instance : Zero Vec3 := ⟨zero⟩

/-- `Vec3.dot`, the Panda3D dot product. -/
def dot (a b : Vec3) : ℝ := a.x * b.x + a.y * b.y + a.z * b.z

/-- Squared euclidean length (`length_squared()` in Panda3D). -/
def sqNorm (a : Vec3) : ℝ := a.x ^ 2 + a.y ^ 2 + a.z ^ 2

/-- Euclidean length, Panda3D `length()`. -/
def norm (a : Vec3) : ℝ := Real.sqrt a.sqNorm

/-- Panda3D `normalized()`: returns the unit vector in the same direction, and
the zero vector when the input has zero length (documented Panda3D behavior:
no exception, no NaN). -/
def normalized (a : Vec3) : Vec3 := if a.norm = 0 then 0 else (1 / a.norm) • a

end Vec3

/-- Python `round(x, 1)` on a coordinate: round to one decimal place.
Lean's `round` is half-up where CPython is half-even; the difference is
confined to exact multiples of 1/20, which no statement below evaluates. -/
def rnd1 (x : ℝ) : ℝ := ((round (10 * x) : ℤ) : ℝ) / 10

/-- The constants of the `Physics` class of `v2.py`, plus the per-instance
properties `__init__` copies from them (`speed`, `jump_height`, `height`,
`mouse_sensitivity`), gathered as the controller's configuration. -/
structure Config where
  gravity : ℝ
  radius : ℝ
  height : ℝ
  jumpHeight : ℝ
  speed : ℝ
  airControl : ℝ
  friction : ℝ
  sensX : ℝ
  sensY : ℝ

/-- `class Physics` of `v2.py`: GRAVITY 25, PLANET_RADIUS 32, PLAYER_HEIGHT 2,
JUMP_HEIGHT 5, MOVE_SPEED 7, AIR_CONTROL 0.8, FRICTION 0.9; mouse
sensitivity Vec2(100, 100) from `SphericalPlayer.__init__`. -/
def Physics : Config :=
  { gravity := 25, radius := 32, height := 2, jumpHeight := 5, speed := 7,
    airControl := 8 / 10, friction := 9 / 10, sensX := 100, sensY := 100 }

/-- `Physics.PLANET_CENTER = Vec3(0, 0, 0)`. -/
def PLANET_CENTER : Vec3 := ⟨0, 0, 0⟩

/-- The per-frame snapshot the controller reads from the engine:
`held_keys` movement axes (`d - a` and `w - s`, each in -1/0/1),
`mouse.velocity`, and the entity's engine-maintained `self.forward` and
`self.right` basis vectors used by the movement code. -/
structure Input where
  moveX : ℝ
  moveZ : ℝ
  mouseVelX : ℝ
  mouseVelY : ℝ
  forward : Vec3
  right : Vec3

/-- The single-slot surface-normal memo of `SphericalPlayer`
(`self._last_pos_tuple`, `self._cached_normal`).  In Python both start as
`None`; since `_cached_normal` is only ever read after being written, it is
carried here as a `Vec3` whose value is irrelevant while `lastKey = none`. -/
structure NormalCache where
  lastKey : Option (ℝ × ℝ × ℝ)
  normal : Vec3

/-- The fresh cache of a newly constructed player. -/
def NormalCache.empty : NormalCache := ⟨none, 0⟩

/-- The mutable state of `SphericalPlayer`: transform position, velocity,
grounded flag, entity rotation (whose y component is the yaw), camera-pivot
pitch (`camera_pivot.rotation_x`), the spawn position recorded at
construction (`self.start_pos`), and the normal cache. -/
structure PlayerState where
  position : Vec3
  velocity : Vec3
  grounded : Bool
  rotation : Vec3
  pitch : ℝ
  startPos : Vec3
  cache : NormalCache

/-- The quantized cache key `(round(pos.x, 1), round(pos.y, 1), round(pos.z, 1))`. -/
def quantKey (p : Vec3) : ℝ × ℝ × ℝ := (rnd1 p.x, rnd1 p.y, rnd1 p.z)

/-- `SphericalPlayer.get_surface_normal` of `v2.py`: if the quantized position
key differs from the stored key, recompute `(pos - PLANET_CENTER).normalized()`
and store it; otherwise return the memoized normal.  Returns the normal
together with the updated cache. -/
def getSurfaceNormal (c : NormalCache) (pos : Vec3) : Vec3 × NormalCache :=
  let k := quantKey pos
  if c.lastKey = some k then (c.normal, c)
  else
    let n := (pos - PLANET_CENTER).normalized
    (n, ⟨some k, n⟩)

/-- The uncached reference query, `get_surface_normal` of `b33132.0.py` and
the spec's contract for `normal_at`: `(p - center).normalized()`. -/
def referenceNormal (p : Vec3) : Vec3 := (p - PLANET_CENTER).normalized

/-- The surface normal `update` computes at the top of a frame (value part of
the cache query at the current position). -/
def frameNormal (s : PlayerState) : Vec3 := (getSurfaceNormal s.cache s.position).1

/-- Ursina `clamp(value, floor, ceiling)`. -/
def clampf (v lo hi : ℝ) : ℝ := max lo (min v hi)

/-- The movement block of `SphericalPlayer.update`: normalize the raw 2-axis
input, map it through the entity's forward/right vectors, and scale by
`speed` and, when airborne, by `AIR_CONTROL`; the zero vector when no key is
held. -/
def moveAmount (cfg : Config) (inp : Input) (grounded : Bool) : Vec3 :=
  if inp.moveX ≠ 0 ∨ inp.moveZ ≠ 0 then
    let len := Real.sqrt (inp.moveX * inp.moveX + inp.moveZ * inp.moveZ)
    let mx := inp.moveX / len
    let mz := inp.moveZ / len
    let dir := mz • inp.forward + mx • inp.right
    (cfg.speed * (if grounded then 1 else cfg.airControl)) • dir
  else 0

/-- Gravity integration of `update`:
`velocity += (-surface_normal * GRAVITY) * dt`. -/
def velAfterGravity (cfg : Config) (dt : ℝ) (n v : Vec3) : Vec3 :=
  v + dt • ((-cfg.gravity) • n)

/-- Position integration of `update`:
`position += (velocity + move_amount) * dt` with the already
gravity-updated velocity. -/
def integratedPos (cfg : Config) (inp : Input) (dt : ℝ) (s : PlayerState) : Vec3 :=
  s.position + dt • (velAfterGravity cfg dt (frameNormal s) s.velocity
    + moveAmount cfg inp s.grounded)

/-- `target_distance = Physics.PLANET_RADIUS + self.height / 2`. -/
def targetDistance (cfg : Config) : ℝ := cfg.radius + cfg.height / 2

/-- The radial-velocity correction of the collision block: if the radial
component `velocity.dot(surface_normal)` is negative, subtract it out. -/
def cancelRadial (n v : Vec3) : Vec3 :=
  if v.dot n < 0 then v - (v.dot n) • n else v

/-- The friction step of the collision block: when neither movement axis is
active this frame, multiply velocity by `FRICTION`. -/
def applyFriction (cfg : Config) (inp : Input) (v : Vec3) : Vec3 :=
  if inp.moveX = 0 ∧ inp.moveZ = 0 then cfg.friction • v else v

/-- The tangential part of a velocity with respect to a surface normal:
`v - n * v.dot(n)` (the part the radial cancellation leaves alone). -/
def tangential (v n : Vec3) : Vec3 := v - (v.dot n) • n

/-- `SphericalPlayer.update` of `v2.py` as a state transformer.  Per frame:
query the (cached) surface normal, advance yaw by mouse x, clamp camera
pitch, build the movement offset from held keys, integrate gravity into
velocity and velocity-plus-movement into position, then resolve ground
collision: inside the target sphere set `grounded`, snap radially to
`target_distance`, cancel inward radial velocity against the frame's
normal, and apply friction when idle; otherwise clear `grounded`. -/
def update (cfg : Config) (inp : Input) (dt : ℝ) (s : PlayerState) : PlayerState :=
  let n := frameNormal s
  let cache' := (getSurfaceNormal s.cache s.position).2
  let rotation' : Vec3 :=
    ⟨s.rotation.x, s.rotation.y + inp.mouseVelX * cfg.sensX * dt, s.rotation.z⟩
  let pitch' := clampf (s.pitch - inp.mouseVelY * cfg.sensY * dt) (-90) 90
  let v1 := velAfterGravity cfg dt n s.velocity
  let p1 := integratedPos cfg inp dt s
  if p1.norm ≤ targetDistance cfg then
    { position := (targetDistance cfg) • p1.normalized
      velocity := applyFriction cfg inp (cancelRadial n v1)
      grounded := true
      rotation := rotation'
      pitch := pitch'
      startPos := s.startPos
      cache := cache' }
  else
    { position := p1
      velocity := v1
      grounded := false
      rotation := rotation'
      pitch := pitch'
      startPos := s.startPos
      cache := cache' }

/-- `SphericalPlayer.jump` of `v2.py`: only when grounded, query the surface
normal, add `surface_normal * jump_height` to velocity and clear the
grounded flag; otherwise do nothing at all. -/
def jump (cfg : Config) (s : PlayerState) : PlayerState :=
  if s.grounded then
    let nc := getSurfaceNormal s.cache s.position
    { s with velocity := s.velocity + cfg.jumpHeight • nc.1
             grounded := false
             cache := nc.2 }
  else s

/-- `SphericalPlayer.reset_position` of `v2.py`: restore `start_pos`, zero
velocity, zero the entity rotation, zero the camera pitch. -/
def resetPosition (s : PlayerState) : PlayerState :=
  { s with position := s.startPos
           velocity := 0
           rotation := 0
           pitch := 0 }

/-- `SphericalPlayer.__init__` of `v2.py` given a spawn position: velocity
zero, not grounded, `start_pos = position.copy()`, camera pivot at pitch 0,
entity rotation at its default 0, empty normal cache.  The constructor
performs no validation of any configuration value. -/
def init (_cfg : Config) (spawn : Vec3) : PlayerState :=
  { position := spawn
    velocity := 0
    grounded := false
    rotation := 0
    pitch := 0
    startPos := spawn
    cache := NormalCache.empty }

namespace SC

/-- Module-level physics constants of `b33134k6.6.25.py` together with the
`SphericalController.__init__` properties: GRAVITY 25, SURFACE_R 32,
PLAYER_SPEED 7, AIR_CONTROL 0.5, FRICTION 0.9, `jump_height` 8,
`mouse_sensitivity` Vec2(40, 40). -/
def cfg : Config :=
  { gravity := 25, radius := 32, height := 2, jumpHeight := 8, speed := 7,
    airControl := 5 / 10, friction := 9 / 10, sensX := 40, sensY := 40 }

/-- Frame input of `SphericalController.update`: raw movement axes
(`w - s` along forward, `d - a` along right), whether any key at all is
held (`any(held_keys.values())`, the friction gate), mouse velocity, and
the engine-maintained forward/right vectors after `look_at`. -/
structure Input where
  moveX : ℝ
  moveZ : ℝ
  anyKey : Bool
  mouseVelX : ℝ
  mouseVelY : ℝ
  forward : Vec3
  right : Vec3

/-- State of `SphericalController`: position, velocity, grounded flag, yaw
(`rotation_y`), camera pitch (`camera_pivot.rotation_x`). -/
structure State where
  position : Vec3
  velocity : Vec3
  grounded : Bool
  yaw : ℝ
  pitch : ℝ

/-- Step 3 of `SphericalController.update`: combine held keys with the
forward/right vectors, project onto the tangent plane of the current up
vector, and normalize when nonzero. -/
def moveDir (inp : Input) (up : Vec3) : Vec3 :=
  let moveInput := inp.moveZ • inp.forward + inp.moveX • inp.right
  let md := moveInput - (moveInput.dot up) • up
  if 0 < md.norm then md.normalized else md

/-- Grounded movement of `SphericalController.update`: blend velocity toward
`move_direction * speed` with fixed weights 0.8/0.2, then apply `FRICTION`
when no key at all is held. -/
def groundVel (inp : Input) (up v : Vec3) : Vec3 :=
  let target := cfg.speed • moveDir inp up
  let vb := (8 / 10 : ℝ) • v + (2 / 10 : ℝ) • target
  if inp.anyKey then vb else cfg.friction • vb

/-- Airborne movement of `SphericalController.update`:
`velocity += move_direction * speed * AIR_CONTROL * dt`. -/
def airVel (inp : Input) (dt : ℝ) (up v : Vec3) : Vec3 :=
  v + (cfg.speed * cfg.airControl * dt) • moveDir inp up

/-- Step 1 of `SphericalController.update`:
`self.up = (self.position - PLANET_CENTER).normalized()`. -/
def up (s : State) : Vec3 := (s.position - PLANET_CENTER).normalized

/-- The movement-updated velocity: grounded blend or airborne force,
selected by the grounded flag. -/
def vMove (inp : Input) (dt : ℝ) (s : State) : Vec3 :=
  if s.grounded then groundVel inp (up s) s.velocity
  else airVel inp dt (up s) s.velocity

/-- Step 4: gravity, `velocity += -up * GRAVITY * dt`. -/
def vIntegrated (inp : Input) (dt : ℝ) (s : State) : Vec3 :=
  vMove inp dt s + dt • ((-cfg.gravity) • up s)

/-- Step 5: `position += velocity * dt`. -/
def pIntegrated (inp : Input) (dt : ℝ) (s : State) : Vec3 :=
  s.position + dt • vIntegrated inp dt s

/-- `SphericalController.update` of `b33134k6.6.25.py`: set the up vector to
the normalized position, advance yaw and clamped pitch from the mouse
(no `dt` factor in this variant), apply grounded-blend or airborne-force
movement, integrate gravity along `-up` and position, then resolve the
sphere collision at radius SURFACE_R (snap and cancel inward radial
velocity; no friction inside the collision block in this variant). -/
def update (inp : Input) (dt : ℝ) (s : State) : State :=
  let u := up s
  let yaw' := s.yaw + inp.mouseVelX * cfg.sensY
  let pitch' := clampf (s.pitch - inp.mouseVelY * cfg.sensX) (-90) 90
  let v2 := vIntegrated inp dt s
  let p1 := pIntegrated inp dt s
  if p1.norm ≤ cfg.radius then
    { position := cfg.radius • p1.normalized
      velocity := if v2.dot u < 0 then v2 - (v2.dot u) • u else v2
      grounded := true
      yaw := yaw'
      pitch := pitch' }
  else
    { position := p1
      velocity := v2
      grounded := false
      yaw := yaw'
      pitch := pitch' }

end SC

/-- An idle input snapshot: no keys held, no mouse motion, the default
forward/right frame of an untouched entity. -/
def idleInput : Input :=
  { moveX := 0, moveZ := 0, mouseVelX := 0, mouseVelY := 0,
    forward := ⟨0, 0, -1⟩, right := ⟨1, 0, 0⟩ }

/-- A forward-walk input snapshot (`w` held), with the entity's default
tangent frame at a position on the +y axis. -/
def forwardInput : Input :=
  { moveX := 0, moveZ := 1, mouseVelX := 0, mouseVelY := 0,
    forward := ⟨0, 0, -1⟩, right := ⟨1, 0, 0⟩ }

/-- A configuration the spec calls invalid: negative planet radius and
negative player height. -/
def badConfig : Config := { Physics with radius := -1, height := -2 }

/-- A concrete airborne state of the `SphericalController` variant: high
above the surface on the +y axis, at rest. -/
def scAirState : SC.State := ⟨⟨0, 40, 0⟩, 0, false, 0, 0⟩

/-- A forward-walk input snapshot for the `SphericalController` variant
(`w` held, so `anyKey` is true), with a tangent forward vector. -/
def scForwardInput : SC.Input :=
  { moveX := 0, moveZ := 1, anyKey := true, mouseVelX := 0, mouseVelY := 0,
    forward := ⟨0, 0, 1⟩, right := ⟨1, 0, 0⟩ }

/-! ## Component and norm lemmas for `Vec3` -/

namespace Vec3

@[ext] theorem ext' {a b : Vec3} (hx : a.x = b.x) (hy : a.y = b.y)
    (hz : a.z = b.z) : a = b := by
  cases a; cases b; simp_all

@[simp] theorem add_x (a b : Vec3) : (a + b).x = a.x + b.x := rfl

@[simp] theorem add_y (a b : Vec3) : (a + b).y = a.y + b.y := rfl

@[simp] theorem add_z (a b : Vec3) : (a + b).z = a.z + b.z := rfl

@[simp] theorem sub_x (a b : Vec3) : (a - b).x = a.x - b.x := rfl

@[simp] theorem sub_y (a b : Vec3) : (a - b).y = a.y - b.y := rfl

@[simp] theorem sub_z (a b : Vec3) : (a - b).z = a.z - b.z := rfl

@[simp] theorem neg_x (a : Vec3) : (-a).x = -a.x := rfl

@[simp] theorem neg_y (a : Vec3) : (-a).y = -a.y := rfl

@[simp] theorem neg_z (a : Vec3) : (-a).z = -a.z := rfl

@[simp] theorem smul_x (r : ℝ) (a : Vec3) : (r • a).x = r * a.x := rfl

@[simp] theorem smul_y (r : ℝ) (a : Vec3) : (r • a).y = r * a.y := rfl

@[simp] theorem smul_z (r : ℝ) (a : Vec3) : (r • a).z = r * a.z := rfl

@[simp] theorem zero_x : (0 : Vec3).x = 0 := rfl

@[simp] theorem zero_y : (0 : Vec3).y = 0 := rfl

@[simp] theorem zero_z : (0 : Vec3).z = 0 := rfl

theorem sqNorm_nonneg (a : Vec3) : 0 ≤ a.sqNorm := by
  unfold sqNorm; positivity

theorem norm_nonneg (a : Vec3) : 0 ≤ a.norm := Real.sqrt_nonneg _

theorem sq_norm (a : Vec3) : a.norm ^ 2 = a.sqNorm := Real.sq_sqrt a.sqNorm_nonneg

theorem sqNorm_eq_zero {a : Vec3} : a.sqNorm = 0 ↔ a = 0 := by
  constructor
  · intro h
    unfold sqNorm at h
    have hx : a.x = 0 := by nlinarith [sq_nonneg a.x, sq_nonneg a.y, sq_nonneg a.z]
    have hy : a.y = 0 := by nlinarith [sq_nonneg a.x, sq_nonneg a.y, sq_nonneg a.z]
    have hz : a.z = 0 := by nlinarith [sq_nonneg a.x, sq_nonneg a.y, sq_nonneg a.z]
    ext <;> simp [hx, hy, hz]
  · rintro rfl; simp [sqNorm]

theorem norm_eq_zero {a : Vec3} : a.norm = 0 ↔ a = 0 := by
  rw [norm, Real.sqrt_eq_zero a.sqNorm_nonneg, sqNorm_eq_zero]

theorem norm_pos {a : Vec3} (h : a ≠ 0) : 0 < a.norm :=
  lt_of_le_of_ne a.norm_nonneg (fun h0 => h (norm_eq_zero.mp h0.symm))

/-- Evaluate the length of a vector whose squared length is a known square. -/
theorem norm_eq_of_sq {a : Vec3} {r : ℝ} (hr : 0 ≤ r) (h : a.sqNorm = r ^ 2) : a.norm = r := by
  rw [norm, h, Real.sqrt_sq hr]

theorem norm_le_iff {a : Vec3} {r : ℝ} (hr : 0 ≤ r) : a.norm ≤ r ↔ a.sqNorm ≤ r ^ 2 := by
  constructor
  · intro h
    have h2 := a.sq_norm
    nlinarith [a.norm_nonneg]
  · intro h
    calc a.norm = Real.sqrt a.sqNorm := rfl
      _ ≤ Real.sqrt (r ^ 2) := Real.sqrt_le_sqrt h
      _ = r := Real.sqrt_sq hr

theorem lt_norm_iff {a : Vec3} {r : ℝ} (hr : 0 ≤ r) : r < a.norm ↔ r ^ 2 < a.sqNorm := by
  constructor
  · intro h
    have := a.sq_norm
    nlinarith [a.norm_nonneg]
  · intro h
    by_contra hc
    push_neg at hc
    have := (norm_le_iff hr).mp hc
    linarith

theorem norm_smul (r : ℝ) (a : Vec3) : (r • a).norm = |r| * a.norm := by
  have h : (r • a).sqNorm = r ^ 2 * a.sqNorm := by
    unfold sqNorm; simp; ring
  rw [norm, h, Real.sqrt_mul (sq_nonneg r), Real.sqrt_sq_eq_abs, norm]

@[simp] theorem normalized_zero : (0 : Vec3).normalized = 0 := by
  simp [normalized, norm_eq_zero]

theorem normalized_of_ne_zero {a : Vec3} (h : a ≠ 0) :
    a.normalized = (1 / a.norm) • a := by
  rw [normalized, if_neg (fun h0 => h (norm_eq_zero.mp h0))]

theorem norm_normalized {a : Vec3} (h : a ≠ 0) : a.normalized.norm = 1 := by
  rw [normalized_of_ne_zero h, norm_smul]
  have hp := norm_pos h
  rw [abs_of_pos (by positivity)]
  field_simp

/-- A vector pointing along the positive y axis normalizes to the unit up vector. -/
theorem normalized_axisY {a : ℝ} (h : 0 < a) :
    (Vec3.mk 0 a 0).normalized = ⟨0, 1, 0⟩ := by
  have hne : (Vec3.mk 0 a 0) ≠ 0 := by
    intro hc
    have := congrArg Vec3.y hc
    simp at this
    exact absurd this (ne_of_gt h)
  have hn : (Vec3.mk 0 a 0).norm = a :=
    norm_eq_of_sq h.le (by unfold sqNorm; ring)
  rw [normalized_of_ne_zero hne, hn]
  ext <;> field_simp

theorem dot_self_eq_sqNorm (a : Vec3) : a.dot a = a.sqNorm := by
  unfold dot sqNorm; ring

theorem normalized_of_norm_one {a : Vec3} (h : a.norm = 1) : a.normalized = a := by
  have hne : a ≠ 0 := by
    intro hc
    rw [hc, norm_eq_zero.mpr rfl] at h
    norm_num at h
  rw [normalized_of_ne_zero hne, h]
  ext <;> simp

theorem dot_add_left (a b c : Vec3) : (a + b).dot c = a.dot c + b.dot c := by
  unfold dot; simp; ring

theorem dot_smul_left (r : ℝ) (a b : Vec3) : (r • a).dot b = r * a.dot b := by
  unfold dot; simp; ring

theorem sqNorm_smul (r : ℝ) (a : Vec3) : (r • a).sqNorm = r ^ 2 * a.sqNorm := by
  unfold sqNorm; simp; ring

theorem norm_eq_one_iff {a : Vec3} : a.norm = 1 ↔ a.sqNorm = 1 := by
  rw [norm, Real.sqrt_eq_one]

end Vec3

/-! ## Helper lemmas about the update pipeline -/

theorem sub_planetCenter (p : Vec3) : p - PLANET_CENTER = p := by
  ext <;> simp [PLANET_CENTER]

theorem getSurfaceNormal_empty (p : Vec3) :
    getSurfaceNormal NormalCache.empty p =
      (p.normalized, ⟨some (quantKey p), p.normalized⟩) := by
  simp [getSurfaceNormal, NormalCache.empty, sub_planetCenter]

theorem frameNormal_of_empty {s : PlayerState} (h : s.cache = NormalCache.empty) :
    frameNormal s = s.position.normalized := by
  rw [frameNormal, h, getSurfaceNormal_empty]

/-- The grounded branch of `update`, spelled out. -/
theorem update_of_le {cfg : Config} {inp : Input} {dt : ℝ} {s : PlayerState}
    (h : (integratedPos cfg inp dt s).norm ≤ targetDistance cfg) :
    update cfg inp dt s =
      { position := (targetDistance cfg) • (integratedPos cfg inp dt s).normalized
        velocity := applyFriction cfg inp
          (cancelRadial (frameNormal s)
            (velAfterGravity cfg dt (frameNormal s) s.velocity))
        grounded := true
        rotation := ⟨s.rotation.x, s.rotation.y + inp.mouseVelX * cfg.sensX * dt,
          s.rotation.z⟩
        pitch := clampf (s.pitch - inp.mouseVelY * cfg.sensY * dt) (-90) 90
        startPos := s.startPos
        cache := (getSurfaceNormal s.cache s.position).2 } := by
  simp only [update]
  rw [if_pos h]

/-- The airborne branch of `update`, spelled out. -/
theorem update_of_gt {cfg : Config} {inp : Input} {dt : ℝ} {s : PlayerState}
    (h : ¬ (integratedPos cfg inp dt s).norm ≤ targetDistance cfg) :
    update cfg inp dt s =
      { position := integratedPos cfg inp dt s
        velocity := velAfterGravity cfg dt (frameNormal s) s.velocity
        grounded := false
        rotation := ⟨s.rotation.x, s.rotation.y + inp.mouseVelX * cfg.sensX * dt,
          s.rotation.z⟩
        pitch := clampf (s.pitch - inp.mouseVelY * cfg.sensY * dt) (-90) 90
        startPos := s.startPos
        cache := (getSurfaceNormal s.cache s.position).2 } := by
  simp only [update]
  rw [if_neg h]

theorem update_startPos (cfg : Config) (inp : Input) (dt : ℝ) (s : PlayerState) :
    (update cfg inp dt s).startPos = s.startPos := by
  by_cases h : (integratedPos cfg inp dt s).norm ≤ targetDistance cfg
  · rw [update_of_le h]
  · rw [update_of_gt h]

theorem moveAmount_idle (cfg : Config) (g : Bool) : moveAmount cfg idleInput g = 0 := by
  simp [moveAmount, idleInput]

/-- Adding a multiple of a unit normal changes only the radial part. -/
theorem tangential_add_smul {n : Vec3} (hn : n.sqNorm = 1) (v : Vec3) (c : ℝ) :
    tangential (v + c • n) n = tangential v n := by
  unfold tangential
  have hdot : (v + c • n).dot n = v.dot n + c := by
    rw [Vec3.dot_add_left, Vec3.dot_smul_left, Vec3.dot_self_eq_sqNorm, hn, mul_one]
  rw [hdot]
  ext <;> simp <;> ring

theorem velAfterGravity_eq (cfg : Config) (dt : ℝ) (n v : Vec3) :
    velAfterGravity cfg dt n v = v + (-(cfg.gravity * dt)) • n := by
  unfold velAfterGravity
  ext <;> simp <;> ring

theorem tangential_velAfterGravity {n : Vec3} (hn : n.sqNorm = 1)
    (cfg : Config) (dt : ℝ) (v : Vec3) :
    tangential (velAfterGravity cfg dt n v) n = tangential v n := by
  rw [velAfterGravity_eq, tangential_add_smul hn]

theorem tangential_cancelRadial {n : Vec3} (hn : n.sqNorm = 1) (v : Vec3) :
    tangential (cancelRadial n v) n = tangential v n := by
  unfold cancelRadial
  split_ifs with h
  · have hsub : v - (v.dot n) • n = v + (-(v.dot n)) • n := by
      ext <;> simp <;> ring
    rw [hsub, tangential_add_smul hn]
  · rfl

theorem tangential_smul (r : ℝ) (v n : Vec3) :
    tangential (r • v) n = r • tangential v n := by
  unfold tangential
  rw [Vec3.dot_smul_left]
  ext <;> simp <;> ring

/-- After the radial cancellation, the radial velocity component is
nonnegative: either it already was, or it has been zeroed exactly. -/
theorem dot_cancelRadial_nonneg {n : Vec3} (hn : n.sqNorm = 1) (v : Vec3) :
    0 ≤ (cancelRadial n v).dot n := by
  unfold cancelRadial
  split_ifs with h
  · have : (v - (v.dot n) • n).dot n = 0 := by
      have hsub : v - (v.dot n) • n = v + (-(v.dot n)) • n := by
        ext <;> simp <;> ring
      rw [hsub, Vec3.dot_add_left, Vec3.dot_smul_left, Vec3.dot_self_eq_sqNorm, hn]
      ring
    rw [this]
  · exact le_of_not_lt h

/-! ## Claim theorems -/

/-- C6: for every prior controller state, `reset_position` restores the
position to the spawn coordinate recorded at construction (`start_pos`,
which `init` sets to the spawn and `update`/`jump` never modify), sets the
velocity to the zero vector, zeroes the body rotation, and resets the
camera pitch to zero. -/
theorem resetPosition_restores_spawn :
    (∀ s : PlayerState,
      (resetPosition s).position = s.startPos ∧
      (resetPosition s).velocity = 0 ∧
      (resetPosition s).rotation = 0 ∧
      (resetPosition s).pitch = 0) ∧
    (∀ (cfg : Config) (spawn : Vec3), (init cfg spawn).startPos = spawn) ∧
    (∀ (cfg : Config) (inp : Input) (dt : ℝ) (s : PlayerState),
      (update cfg inp dt s).startPos = s.startPos) ∧
    (∀ (cfg : Config) (s : PlayerState), (jump cfg s).startPos = s.startPos) := by
  refine ⟨fun s => ⟨rfl, rfl, rfl, rfl⟩, fun cfg spawn => rfl, update_startPos, ?_⟩
  intro cfg s
  unfold jump
  by_cases h : s.grounded <;> simp [h]

/-- C1 counterexample: a frame that starts above the surface at (0, 34, 0)
with velocity (0, -9, 0) and dt = 1 integrates to exactly the planet
center, which is at distance 0 <= targetDistance; the resolver then sets
grounded but snaps the position to the zero vector, whose distance from the
center is 0, not targetDistance = 33. -/
theorem grounded_resolution_counterexample :
    (integratedPos Physics idleInput 1
        ⟨⟨0, 34, 0⟩, ⟨0, -9, 0⟩, false, 0, 0, ⟨0, 34, 0⟩, NormalCache.empty⟩).norm
      ≤ targetDistance Physics ∧
    (update Physics idleInput 1
        ⟨⟨0, 34, 0⟩, ⟨0, -9, 0⟩, false, 0, 0, ⟨0, 34, 0⟩, NormalCache.empty⟩).grounded
      = true ∧
    ((update Physics idleInput 1
        ⟨⟨0, 34, 0⟩, ⟨0, -9, 0⟩, false, 0, 0, ⟨0, 34, 0⟩, NormalCache.empty⟩).position
      - PLANET_CENTER).norm ≠ targetDistance Physics := by
  have hfn : frameNormal
      ⟨⟨0, 34, 0⟩, ⟨0, -9, 0⟩, false, 0, 0, ⟨0, 34, 0⟩, NormalCache.empty⟩
      = ⟨0, 1, 0⟩ := by
    rw [frameNormal_of_empty rfl]
    exact Vec3.normalized_axisY (by norm_num)
  have hint : integratedPos Physics idleInput 1
      ⟨⟨0, 34, 0⟩, ⟨0, -9, 0⟩, false, 0, 0, ⟨0, 34, 0⟩, NormalCache.empty⟩ = 0 := by
    rw [integratedPos, hfn, moveAmount_idle, velAfterGravity_eq]
    ext <;> simp [Physics]
    norm_num
  have hb : (integratedPos Physics idleInput 1
      ⟨⟨0, 34, 0⟩, ⟨0, -9, 0⟩, false, 0, 0, ⟨0, 34, 0⟩, NormalCache.empty⟩).norm
      ≤ targetDistance Physics := by
    rw [hint, Vec3.norm_eq_zero.mpr rfl]
    norm_num [targetDistance, Physics]
  refine ⟨hb, ?_, ?_⟩
  · rw [update_of_le hb]
  · rw [update_of_le hb]
    show ((targetDistance Physics • (integratedPos Physics idleInput 1 _).normalized)
      - PLANET_CENTER).norm ≠ targetDistance Physics
    rw [hint, Vec3.normalized_zero, sub_planetCenter]
    have hz : targetDistance Physics • (0 : Vec3) = 0 := by ext <;> simp
    rw [hz, Vec3.norm_eq_zero.mpr rfl]
    norm_num [targetDistance, Physics]

/-- C1 amended: in every frame whose integrated position ends at or below
the target stand-off distance and is not exactly the planet center (and
whose frame normal is the unit vector real executions provide), the
resolver sets grounded, snaps the position to distance exactly
targetDistance from the center, leaves the post-resolution radial velocity
component nonnegative, and the radial cancellation step preserves the
tangential velocity component exactly. -/
theorem grounded_resolution (inp : Input) (dt : ℝ) (s : PlayerState)
    (hn : (frameNormal s).norm = 1)
    (hb : (integratedPos Physics inp dt s).norm ≤ targetDistance Physics)
    (hp : integratedPos Physics inp dt s ≠ 0) :
    (update Physics inp dt s).grounded = true ∧
    ((update Physics inp dt s).position - PLANET_CENTER).norm = targetDistance Physics ∧
    0 ≤ (update Physics inp dt s).velocity.dot (frameNormal s) ∧
    tangential (cancelRadial (frameNormal s)
        (velAfterGravity Physics dt (frameNormal s) s.velocity)) (frameNormal s)
      = tangential (velAfterGravity Physics dt (frameNormal s) s.velocity)
          (frameNormal s) := by
  have hsq : (frameNormal s).sqNorm = 1 := Vec3.norm_eq_one_iff.mp hn
  rw [update_of_le hb]
  refine ⟨rfl, ?_, ?_, tangential_cancelRadial hsq _⟩
  · show ((targetDistance Physics • (integratedPos Physics inp dt s).normalized)
      - PLANET_CENTER).norm = targetDistance Physics
    rw [sub_planetCenter, Vec3.norm_smul, Vec3.norm_normalized hp, mul_one]
    rw [abs_of_nonneg (by norm_num [targetDistance, Physics])]
  · show 0 ≤ (applyFriction Physics inp (cancelRadial (frameNormal s)
      (velAfterGravity Physics dt (frameNormal s) s.velocity))).dot (frameNormal s)
    unfold applyFriction
    split_ifs with h
    · rw [Vec3.dot_smul_left]
      have h1 := dot_cancelRadial_nonneg hsq
        (velAfterGravity Physics dt (frameNormal s) s.velocity)
      have h2 : (0 : ℝ) ≤ Physics.friction := by norm_num [Physics]
      positivity
    · exact dot_cancelRadial_nonneg hsq _

/-- Witness for C1: an idle grounded frame from (0, 33, 0) with dt = 1/10
lands at (0, 32.75, 0), inside the target sphere and away from the center;
the resolver snaps back to distance 33 with nonnegative radial velocity. -/
theorem grounded_resolution_witness :
    (update Physics idleInput (1 / 10)
        ⟨⟨0, 33, 0⟩, 0, true, 0, 0, ⟨0, 33, 0⟩, NormalCache.empty⟩).grounded = true ∧
    ((update Physics idleInput (1 / 10)
        ⟨⟨0, 33, 0⟩, 0, true, 0, 0, ⟨0, 33, 0⟩, NormalCache.empty⟩).position
      - PLANET_CENTER).norm = targetDistance Physics ∧
    0 ≤ (update Physics idleInput (1 / 10)
        ⟨⟨0, 33, 0⟩, 0, true, 0, 0, ⟨0, 33, 0⟩, NormalCache.empty⟩).velocity.dot
          (frameNormal ⟨⟨0, 33, 0⟩, 0, true, 0, 0, ⟨0, 33, 0⟩, NormalCache.empty⟩) ∧
    tangential (cancelRadial
        (frameNormal ⟨⟨0, 33, 0⟩, 0, true, 0, 0, ⟨0, 33, 0⟩, NormalCache.empty⟩)
        (velAfterGravity Physics (1 / 10)
          (frameNormal ⟨⟨0, 33, 0⟩, 0, true, 0, 0, ⟨0, 33, 0⟩, NormalCache.empty⟩) 0))
        (frameNormal ⟨⟨0, 33, 0⟩, 0, true, 0, 0, ⟨0, 33, 0⟩, NormalCache.empty⟩)
      = tangential (velAfterGravity Physics (1 / 10)
          (frameNormal ⟨⟨0, 33, 0⟩, 0, true, 0, 0, ⟨0, 33, 0⟩, NormalCache.empty⟩) 0)
          (frameNormal ⟨⟨0, 33, 0⟩, 0, true, 0, 0, ⟨0, 33, 0⟩, NormalCache.empty⟩) := by
  have hfn : frameNormal ⟨⟨0, 33, 0⟩, 0, true, 0, 0, ⟨0, 33, 0⟩, NormalCache.empty⟩
      = ⟨0, 1, 0⟩ := by
    rw [frameNormal_of_empty rfl]
    exact Vec3.normalized_axisY (by norm_num)
  have hint : integratedPos Physics idleInput (1 / 10)
      ⟨⟨0, 33, 0⟩, 0, true, 0, 0, ⟨0, 33, 0⟩, NormalCache.empty⟩
      = ⟨0, 131 / 4, 0⟩ := by
    rw [integratedPos, hfn, moveAmount_idle, velAfterGravity_eq]
    ext <;> simp [Physics]
    norm_num
  exact grounded_resolution idleInput (1 / 10) _
    (by rw [hfn]; exact Vec3.norm_eq_of_sq (by norm_num) (by unfold Vec3.sqNorm; norm_num))
    (by
      rw [hint, show targetDistance Physics = 33 by norm_num [targetDistance, Physics]]
      rw [Vec3.norm_le_iff (by norm_num)]
      unfold Vec3.sqNorm
      norm_num)
    (by
      rw [hint]
      intro hc
      have := congrArg Vec3.y hc
      norm_num at this)

/-- C10 counterexample: a frame from (0, 35, 0) with velocity (0, -10, 0)
and dt = 1 integrates to exactly the planet center; after the update the
grounded flag is true yet the snapped position is the zero vector, at
distance 0 from the center instead of the target stand-off distance 33. -/
theorem grounded_flag_invariant_counterexample :
    (update Physics idleInput 1
        ⟨⟨0, 35, 0⟩, ⟨0, -10, 0⟩, false, 0, 0, ⟨0, 35, 0⟩, NormalCache.empty⟩).grounded
      = true ∧
    ((update Physics idleInput 1
        ⟨⟨0, 35, 0⟩, ⟨0, -10, 0⟩, false, 0, 0, ⟨0, 35, 0⟩, NormalCache.empty⟩).position
      - PLANET_CENTER).norm ≠ targetDistance Physics := by
  have hfn : frameNormal
      ⟨⟨0, 35, 0⟩, ⟨0, -10, 0⟩, false, 0, 0, ⟨0, 35, 0⟩, NormalCache.empty⟩
      = ⟨0, 1, 0⟩ := by
    rw [frameNormal_of_empty rfl]
    exact Vec3.normalized_axisY (by norm_num)
  have hint : integratedPos Physics idleInput 1
      ⟨⟨0, 35, 0⟩, ⟨0, -10, 0⟩, false, 0, 0, ⟨0, 35, 0⟩, NormalCache.empty⟩ = 0 := by
    rw [integratedPos, hfn, moveAmount_idle, velAfterGravity_eq]
    ext <;> simp [Physics]
    norm_num
  have hb : (integratedPos Physics idleInput 1
      ⟨⟨0, 35, 0⟩, ⟨0, -10, 0⟩, false, 0, 0, ⟨0, 35, 0⟩, NormalCache.empty⟩).norm
      ≤ targetDistance Physics := by
    rw [hint, Vec3.norm_eq_zero.mpr rfl]
    norm_num [targetDistance, Physics]
  refine ⟨by rw [update_of_le hb], ?_⟩
  rw [update_of_le hb]
  show ((targetDistance Physics • (integratedPos Physics idleInput 1 _).normalized)
    - PLANET_CENTER).norm ≠ targetDistance Physics
  rw [hint, Vec3.normalized_zero, sub_planetCenter]
  have hz : targetDistance Physics • (0 : Vec3) = 0 := by ext <;> simp
  rw [hz, Vec3.norm_eq_zero.mpr rfl]
  norm_num [targetDistance, Physics]

/-- C10 amended: after every update, the grounded flag and the position are
consistent up to the planet-center degeneracy: if grounded is true and the
post-update position is not exactly the planet center then its distance
from the center is exactly the target stand-off distance, and if grounded
is false then its distance from the center is strictly greater than the
target stand-off distance. -/
theorem grounded_flag_invariant (inp : Input) (dt : ℝ) (s : PlayerState) :
    ((update Physics inp dt s).grounded = true →
      (update Physics inp dt s).position ≠ 0 →
      ((update Physics inp dt s).position - PLANET_CENTER).norm
        = targetDistance Physics) ∧
    ((update Physics inp dt s).grounded = false →
      targetDistance Physics
        < ((update Physics inp dt s).position - PLANET_CENTER).norm) := by
  by_cases hb : (integratedPos Physics inp dt s).norm ≤ targetDistance Physics
  · rw [update_of_le hb]
    constructor
    · intro _ hpos
      show ((targetDistance Physics • (integratedPos Physics inp dt s).normalized)
        - PLANET_CENTER).norm = targetDistance Physics
      rw [sub_planetCenter]
      by_cases hp : integratedPos Physics inp dt s = 0
      · exfalso
        apply hpos
        show targetDistance Physics • (integratedPos Physics inp dt s).normalized = 0
        rw [hp, Vec3.normalized_zero]
        ext <;> simp
      · rw [Vec3.norm_smul, Vec3.norm_normalized hp, mul_one]
        rw [abs_of_nonneg (by norm_num [targetDistance, Physics])]
    · intro h
      exact absurd h (by simp)
  · rw [update_of_gt hb]
    constructor
    · intro h
      exact absurd h (by simp)
    · intro _
      rw [sub_planetCenter]
      exact lt_of_not_le hb

/-- Witness for C10: an idle grounded frame from (0, 33, 0) with dt = 1/20;
after the update the avatar is grounded at a nonzero position whose
distance from the center is exactly the target stand-off distance. -/
theorem grounded_flag_invariant_witness :
    ((update Physics idleInput (1 / 20)
        ⟨⟨0, 33, 0⟩, 0, true, 0, 0, ⟨0, 33, 0⟩, NormalCache.empty⟩).position
      - PLANET_CENTER).norm = targetDistance Physics := by
  have hfn : frameNormal ⟨⟨0, 33, 0⟩, 0, true, 0, 0, ⟨0, 33, 0⟩, NormalCache.empty⟩
      = ⟨0, 1, 0⟩ := by
    rw [frameNormal_of_empty rfl]
    exact Vec3.normalized_axisY (by norm_num)
  have hint : integratedPos Physics idleInput (1 / 20)
      ⟨⟨0, 33, 0⟩, 0, true, 0, 0, ⟨0, 33, 0⟩, NormalCache.empty⟩
      = ⟨0, 527 / 16, 0⟩ := by
    rw [integratedPos, hfn, moveAmount_idle, velAfterGravity_eq]
    ext <;> simp [Physics]
    norm_num
  have hb : (integratedPos Physics idleInput (1 / 20)
      ⟨⟨0, 33, 0⟩, 0, true, 0, 0, ⟨0, 33, 0⟩, NormalCache.empty⟩).norm
      ≤ targetDistance Physics := by
    rw [hint, show targetDistance Physics = 33 by norm_num [targetDistance, Physics]]
    rw [Vec3.norm_le_iff (by norm_num)]
    unfold Vec3.sqNorm
    norm_num
  have hg : (update Physics idleInput (1 / 20)
      ⟨⟨0, 33, 0⟩, 0, true, 0, 0, ⟨0, 33, 0⟩, NormalCache.empty⟩).grounded = true := by
    rw [update_of_le hb]
  have hpos : (update Physics idleInput (1 / 20)
      ⟨⟨0, 33, 0⟩, 0, true, 0, 0, ⟨0, 33, 0⟩, NormalCache.empty⟩).position ≠ 0 := by
    rw [update_of_le hb]
    show targetDistance Physics • (integratedPos Physics idleInput (1 / 20) _).normalized ≠ 0
    rw [hint, show (527 : ℝ) / 16 = 527 / 16 from rfl]
    rw [Vec3.normalized_axisY (a := 527 / 16) (by norm_num)]
    intro hc
    have := congrArg Vec3.y hc
    simp [targetDistance, Physics] at this
    norm_num at this
  exact (grounded_flag_invariant idleInput (1 / 20)
    ⟨⟨0, 33, 0⟩, 0, true, 0, 0, ⟨0, 33, 0⟩, NormalCache.empty⟩).1 hg hpos

/-- C2: from any grounded state whose surface-normal query yields a unit
vector (as it does whenever the cache was filled from a position other than
the planet center), `jump` clears the grounded flag and raises the radial
velocity component `velocity.dot(normal)` by exactly `jump_height`, where
the normal is the one `get_surface_normal` returns at the avatar's current
position. -/
theorem jump_grounded_impulse (cfg : Config) (s : PlayerState)
    (hg : s.grounded = true) (hn : (frameNormal s).norm = 1) :
    (jump cfg s).grounded = false ∧
    (jump cfg s).velocity.dot (frameNormal s)
      = s.velocity.dot (frameNormal s) + cfg.jumpHeight := by
  have hsq : (frameNormal s).sqNorm = 1 := Vec3.norm_eq_one_iff.mp hn
  have hj : jump cfg s =
      { s with velocity := s.velocity + cfg.jumpHeight • frameNormal s
               grounded := false
               cache := (getSurfaceNormal s.cache s.position).2 } := by
    unfold jump
    rw [hg, if_pos rfl]
    rfl
  rw [hj]
  refine ⟨rfl, ?_⟩
  show (s.velocity + cfg.jumpHeight • frameNormal s).dot (frameNormal s) = _
  rw [Vec3.dot_add_left, Vec3.dot_smul_left, Vec3.dot_self_eq_sqNorm, hsq, mul_one]

/-- Witness for C2: a grounded avatar standing at (0, 33, 0) with a fresh
cache; the queried normal is (0, 1, 0) and the jump raises the radial
velocity by JUMP_HEIGHT = 5. -/
theorem jump_grounded_impulse_witness :
    (jump Physics
        ⟨⟨0, 33, 0⟩, ⟨2, 3, 4⟩, true, 0, 0, ⟨0, 33, 0⟩, NormalCache.empty⟩).grounded
      = false ∧
    (jump Physics
        ⟨⟨0, 33, 0⟩, ⟨2, 3, 4⟩, true, 0, 0, ⟨0, 33, 0⟩, NormalCache.empty⟩).velocity.dot
        (frameNormal ⟨⟨0, 33, 0⟩, ⟨2, 3, 4⟩, true, 0, 0, ⟨0, 33, 0⟩, NormalCache.empty⟩)
      = (Vec3.mk 2 3 4).dot
          (frameNormal ⟨⟨0, 33, 0⟩, ⟨2, 3, 4⟩, true, 0, 0, ⟨0, 33, 0⟩, NormalCache.empty⟩)
        + Physics.jumpHeight := by
  have hn : frameNormal ⟨⟨0, 33, 0⟩, ⟨2, 3, 4⟩, true, 0, 0, ⟨0, 33, 0⟩, NormalCache.empty⟩
      = ⟨0, 1, 0⟩ := by
    rw [frameNormal_of_empty rfl]
    exact Vec3.normalized_axisY (by norm_num)
  exact jump_grounded_impulse Physics _ rfl
    (by rw [hn]; exact Vec3.norm_eq_of_sq (by norm_num) (by unfold Vec3.sqNorm; norm_num))

theorem moveAmount_forward_air :
    moveAmount Physics forwardInput false = ⟨0, 0, -(28 / 5)⟩ := by
  unfold moveAmount
  rw [if_pos (Or.inr (by norm_num [forwardInput]))]
  have hs : Real.sqrt (forwardInput.moveX * forwardInput.moveX
      + forwardInput.moveZ * forwardInput.moveZ) = 1 := by
    norm_num [forwardInput, Real.sqrt_one]
  show (Physics.speed * (if false then 1 else Physics.airControl)) •
      ((forwardInput.moveZ / Real.sqrt (forwardInput.moveX * forwardInput.moveX
          + forwardInput.moveZ * forwardInput.moveZ)) • forwardInput.forward
        + (forwardInput.moveX / Real.sqrt (forwardInput.moveX * forwardInput.moveX
          + forwardInput.moveZ * forwardInput.moveZ)) • forwardInput.right)
      = ⟨0, 0, -(28 / 5)⟩
  rw [hs]
  ext <;> simp [forwardInput, Physics]
  norm_num

/-- C3 counterexample: on the `SphericalPlayer` controller (`v2.py`), an
airborne frame with forward input held produces exactly the same velocity
as the same frame with no input at all — the movement contribution never
enters the velocity; it is a pure position offset (visible as a changed z
coordinate).  So airborne movement is not a force added to velocity scaled
by dt in this variant. -/
theorem airborne_movement_counterexample :
    (update Physics forwardInput (1 / 100)
        ⟨⟨0, 40, 0⟩, 0, false, 0, 0, ⟨0, 40, 0⟩, NormalCache.empty⟩).velocity
      = (update Physics idleInput (1 / 100)
          ⟨⟨0, 40, 0⟩, 0, false, 0, 0, ⟨0, 40, 0⟩, NormalCache.empty⟩).velocity ∧
    (update Physics forwardInput (1 / 100)
        ⟨⟨0, 40, 0⟩, 0, false, 0, 0, ⟨0, 40, 0⟩, NormalCache.empty⟩).position
      ≠ (update Physics idleInput (1 / 100)
          ⟨⟨0, 40, 0⟩, 0, false, 0, 0, ⟨0, 40, 0⟩, NormalCache.empty⟩).position := by
  have hfn : frameNormal ⟨⟨0, 40, 0⟩, 0, false, 0, 0, ⟨0, 40, 0⟩, NormalCache.empty⟩
      = ⟨0, 1, 0⟩ := by
    rw [frameNormal_of_empty rfl]
    exact Vec3.normalized_axisY (by norm_num)
  have hintM : integratedPos Physics forwardInput (1 / 100)
      ⟨⟨0, 40, 0⟩, 0, false, 0, 0, ⟨0, 40, 0⟩, NormalCache.empty⟩
      = ⟨0, 15999 / 400, -(7 / 125)⟩ := by
    rw [integratedPos, hfn, moveAmount_forward_air, velAfterGravity_eq]
    ext <;> norm_num [Physics]
  have hintI : integratedPos Physics idleInput (1 / 100)
      ⟨⟨0, 40, 0⟩, 0, false, 0, 0, ⟨0, 40, 0⟩, NormalCache.empty⟩
      = ⟨0, 15999 / 400, 0⟩ := by
    rw [integratedPos, hfn, moveAmount_idle, velAfterGravity_eq]
    ext <;> simp [Physics]
    norm_num
  have ht33 : targetDistance Physics = 33 := by norm_num [targetDistance, Physics]
  have hgtM : ¬ (integratedPos Physics forwardInput (1 / 100)
      ⟨⟨0, 40, 0⟩, 0, false, 0, 0, ⟨0, 40, 0⟩, NormalCache.empty⟩).norm
      ≤ targetDistance Physics := by
    rw [hintM, ht33]
    exact not_le.mpr ((Vec3.lt_norm_iff (by norm_num)).mpr
      (by unfold Vec3.sqNorm; norm_num))
  have hgtI : ¬ (integratedPos Physics idleInput (1 / 100)
      ⟨⟨0, 40, 0⟩, 0, false, 0, 0, ⟨0, 40, 0⟩, NormalCache.empty⟩).norm
      ≤ targetDistance Physics := by
    rw [hintI, ht33]
    exact not_le.mpr ((Vec3.lt_norm_iff (by norm_num)).mpr
      (by unfold Vec3.sqNorm; norm_num))
  rw [update_of_gt hgtM, update_of_gt hgtI]
  refine ⟨rfl, ?_⟩
  show integratedPos Physics forwardInput (1 / 100) _
    ≠ integratedPos Physics idleInput (1 / 100) _
  rw [hintM, hintI]
  intro h
  have := congrArg Vec3.z h
  norm_num at this

/-- C3 amended: in the `SphericalController` variant
(`b33134k6.6.25.py`), for every airborne state and movement input, the
frame's movement contribution is a force added to velocity scaled by dt
and by the air-control factor AIR_CONTROL = 0.5 < 1: as long as the frame
stays airborne, the new velocity is exactly the old velocity plus
`moveDir * speed * AIR_CONTROL * dt` plus the gravity term.  (In the
`SphericalPlayer` variant, by contrast, airborne input is a pure position
offset scaled by AIR_CONTROL = 0.8 < 1 and dt, never a velocity change.) -/
theorem sc_airborne_velocity_force (inp : SC.Input) (dt : ℝ) (s : SC.State)
    (hg : s.grounded = false)
    (hb : ¬ (SC.pIntegrated inp dt s).norm ≤ SC.cfg.radius) :
    (SC.update inp dt s).velocity
      = s.velocity
        + (SC.cfg.speed * SC.cfg.airControl * dt) • SC.moveDir inp (SC.up s)
        + dt • ((-SC.cfg.gravity) • SC.up s) ∧
    SC.cfg.airControl < 1 := by
  constructor
  · show (SC.update inp dt s).velocity = _
    simp only [SC.update]
    rw [if_neg hb]
    show SC.vIntegrated inp dt s = _
    unfold SC.vIntegrated SC.vMove
    rw [hg, if_neg Bool.false_ne_true]
    unfold SC.airVel
    rfl
  · norm_num [SC.cfg]

/-- Witness for C3 (amended): the concrete airborne forward-walk frame of
the `SphericalController` variant gains exactly the air-control force
term in its velocity. -/
theorem sc_airborne_velocity_force_witness :
    (SC.update scForwardInput (1 / 100) scAirState).velocity
      = scAirState.velocity
        + (SC.cfg.speed * SC.cfg.airControl * (1 / 100)) •
            SC.moveDir scForwardInput (SC.up scAirState)
        + ((1 : ℝ) / 100) • ((-SC.cfg.gravity) • SC.up scAirState) ∧
    SC.cfg.airControl < 1 := by
  have hup : SC.up scAirState = ⟨0, 1, 0⟩ := by
    rw [SC.up, sub_planetCenter]
    show (Vec3.mk 0 40 0).normalized = _
    exact Vec3.normalized_axisY (by norm_num)
  have hmd : SC.moveDir scForwardInput ⟨0, 1, 0⟩ = ⟨0, 0, 1⟩ := by
    unfold SC.moveDir
    have hraw : scForwardInput.moveZ • scForwardInput.forward
        + scForwardInput.moveX • scForwardInput.right
        - ((scForwardInput.moveZ • scForwardInput.forward
            + scForwardInput.moveX • scForwardInput.right).dot ⟨0, 1, 0⟩) • (⟨0, 1, 0⟩ : Vec3)
        = ⟨0, 0, 1⟩ := by
      ext <;> simp [scForwardInput, Vec3.dot]
    show (if 0 < (scForwardInput.moveZ • scForwardInput.forward
        + scForwardInput.moveX • scForwardInput.right
        - ((scForwardInput.moveZ • scForwardInput.forward
            + scForwardInput.moveX • scForwardInput.right).dot ⟨0, 1, 0⟩) •
              (⟨0, 1, 0⟩ : Vec3)).norm
      then (scForwardInput.moveZ • scForwardInput.forward
        + scForwardInput.moveX • scForwardInput.right
        - ((scForwardInput.moveZ • scForwardInput.forward
            + scForwardInput.moveX • scForwardInput.right).dot ⟨0, 1, 0⟩) •
              (⟨0, 1, 0⟩ : Vec3)).normalized
      else scForwardInput.moveZ • scForwardInput.forward
        + scForwardInput.moveX • scForwardInput.right
        - ((scForwardInput.moveZ • scForwardInput.forward
            + scForwardInput.moveX • scForwardInput.right).dot ⟨0, 1, 0⟩) •
              (⟨0, 1, 0⟩ : Vec3)) = ⟨0, 0, 1⟩
    rw [hraw]
    have hone : (Vec3.mk 0 0 1).norm = 1 :=
      Vec3.norm_eq_of_sq (by norm_num) (by unfold Vec3.sqNorm; norm_num)
    rw [if_pos (by rw [hone]; norm_num)]
    exact Vec3.normalized_of_norm_one hone
  have hvm : SC.vMove scForwardInput (1 / 100) scAirState = ⟨0, 0, 7 / 200⟩ := by
    unfold SC.vMove
    rw [show scAirState.grounded = false from rfl, if_neg Bool.false_ne_true]
    unfold SC.airVel
    rw [hup, hmd]
    ext <;> simp [scAirState, SC.cfg]
    norm_num
  have hvi : SC.vIntegrated scForwardInput (1 / 100) scAirState
      = ⟨0, -(1 / 4), 7 / 200⟩ := by
    unfold SC.vIntegrated
    rw [hvm, hup]
    ext <;> simp [SC.cfg]
    norm_num
  have hpi : SC.pIntegrated scForwardInput (1 / 100) scAirState
      = ⟨0, 15999 / 400, 7 / 20000⟩ := by
    unfold SC.pIntegrated
    rw [hvi]
    ext <;> norm_num [scAirState]
  have hb : ¬ (SC.pIntegrated scForwardInput (1 / 100) scAirState).norm
      ≤ SC.cfg.radius := by
    rw [hpi, show SC.cfg.radius = 32 from rfl]
    exact not_le.mpr ((Vec3.lt_norm_iff (by norm_num)).mpr
      (by unfold Vec3.sqNorm; norm_num))
  exact sc_airborne_velocity_force scForwardInput (1 / 100) scAirState rfl hb

/-- Evaluate Python `round(x, 1)` from a bracketing of `10 * x + 1/2`. -/
theorem rnd1_eq (x : ℝ) (k : ℤ) (h1 : (k : ℝ) ≤ 10 * x + 1 / 2)
    (h2 : 10 * x + 1 / 2 < k + 1) : rnd1 x = (k : ℝ) / 10 := by
  have hf : ⌊(10 : ℝ) * x + 1 / 2⌋ = k := Int.floor_eq_iff.mpr ⟨h1, h2⟩
  rw [rnd1, round_eq, hf]

/-- C4 counterexample: fill the cache by querying at (0.04, 33, 0) — whose
quantized key is (0.0, 33.0, 0.0) — then query at (0, 33, 0).  The second
query has the same quantized key, so the memo hit returns the stale normal
computed from (0.04, 33, 0), which differs from the uncached reference
normal (0, 1, 0) of the queried position. -/
theorem cache_stale_counterexample :
    (getSurfaceNormal (getSurfaceNormal NormalCache.empty ⟨1 / 25, 33, 0⟩).2
        ⟨0, 33, 0⟩).1
      ≠ referenceNormal ⟨0, 33, 0⟩ := by
  have h1 : rnd1 (1 / 25) = 0 := by
    rw [rnd1_eq (1 / 25) 0 (by norm_num) (by norm_num)]
    norm_num
  have h2 : rnd1 0 = 0 := by
    rw [rnd1_eq 0 0 (by norm_num) (by norm_num)]
    norm_num
  have hk : quantKey (⟨1 / 25, 33, 0⟩ : Vec3) = quantKey ⟨0, 33, 0⟩ := by
    show (rnd1 (1 / 25), rnd1 33, rnd1 0) = (rnd1 0, rnd1 33, rnd1 0)
    rw [h1, h2]
  rw [getSurfaceNormal_empty]
  have hhit : getSurfaceNormal
      ⟨some (quantKey ⟨1 / 25, 33, 0⟩), (⟨1 / 25, 33, 0⟩ : Vec3).normalized⟩
      ⟨0, 33, 0⟩
      = ((⟨1 / 25, 33, 0⟩ : Vec3).normalized,
          ⟨some (quantKey ⟨1 / 25, 33, 0⟩), (⟨1 / 25, 33, 0⟩ : Vec3).normalized⟩) := by
    unfold getSurfaceNormal
    rw [if_pos (congrArg some hk)]
  rw [hhit, referenceNormal, sub_planetCenter,
    Vec3.normalized_axisY (a := 33) (by norm_num)]
  intro h
  have hne : (⟨1 / 25, 33, 0⟩ : Vec3) ≠ 0 := by
    intro hc
    have := congrArg Vec3.y hc
    norm_num at this
  have hx := congrArg Vec3.x h
  rw [Vec3.normalized_of_ne_zero hne] at hx
  have hxval : (1 / (⟨1 / 25, 33, 0⟩ : Vec3).norm) * (1 / 25) = (0 : ℝ) := hx
  have hpos := Vec3.norm_pos hne
  have hgt : 0 < (1 / (⟨1 / 25, 33, 0⟩ : Vec3).norm) * (1 / 25) :=
    mul_pos (div_pos one_pos hpos) (by norm_num)
  linarith

/-- C4 amended: whenever the quantized key of the queried position differs
from the cached key (in particular on the first query and after any motion
that changes the key), the cached query returns exactly the uncached
reference normal `(p - center).normalized()`; on a key hit, however, it
returns the normal memoized from an earlier position with the same
quantized key, which can differ from the reference normal of the queried
position by up to the 0.1-granularity staleness. -/
theorem cache_miss_returns_reference (c : NormalCache) (p : Vec3)
    (h : c.lastKey ≠ some (quantKey p)) :
    (getSurfaceNormal c p).1 = referenceNormal p := by
  unfold getSurfaceNormal referenceNormal
  simp only []
  rw [if_neg h]

/-- Witness for C4: the very first query, on an empty cache, returns the
reference normal. -/
theorem cache_miss_returns_reference_witness :
    (getSurfaceNormal NormalCache.empty ⟨0, 33, 0⟩).1
      = referenceNormal ⟨0, 33, 0⟩ :=
  cache_miss_returns_reference NormalCache.empty ⟨0, 33, 0⟩ (by simp [NormalCache.empty])

/-- C5 counterexample: queried at the planet center, the normal query
returns a vector of length 0, so the deterministic fallback it produces is
not a unit vector (such as a fixed world up). -/
theorem normal_at_center_not_unit : (referenceNormal PLANET_CENTER).norm ≠ 1 := by
  have hc : PLANET_CENTER = (0 : Vec3) := by ext <;> simp [PLANET_CENTER]
  rw [referenceNormal, sub_planetCenter, hc, Vec3.normalized_zero,
    Vec3.norm_eq_zero.mpr rfl]
  norm_num

/-- C5 amended: at the degenerate position p = center the normal query
deterministically returns the zero vector — Panda3D normalizes a
zero-length vector to zero, so no NaN is produced and no error is raised
and the caller just receives Vec3(0, 0, 0); the cached wrapper behaves the
same way. -/
theorem normal_at_center_zero_fallback :
    referenceNormal PLANET_CENTER = 0 ∧
    (getSurfaceNormal NormalCache.empty PLANET_CENTER).1 = 0 := by
  have hc : PLANET_CENTER = (0 : Vec3) := by ext <;> simp [PLANET_CENTER]
  constructor
  · rw [referenceNormal, sub_planetCenter, hc, Vec3.normalized_zero]
  · rw [getSurfaceNormal_empty, hc]
    exact Vec3.normalized_zero

/-- C7: in any frame that ends in the grounded branch (with the unit frame
normal of real executions), friction behaves exactly as the spec says:
if no movement input is present this frame the squared tangential speed
with respect to the frame's surface normal is multiplied by exactly
FRICTION^2 (geometric decay, hence monotonically non-increasing over any
run of such frames), and if any movement input is present the friction
multiplication is skipped entirely: the post-frame velocity is exactly the
radial-cancelled gravity-integrated velocity. -/
theorem friction_decay (inp : Input) (dt : ℝ) (s : PlayerState)
    (hn : (frameNormal s).norm = 1)
    (hb : (integratedPos Physics inp dt s).norm ≤ targetDistance Physics) :
    ((inp.moveX = 0 ∧ inp.moveZ = 0) →
      (tangential (update Physics inp dt s).velocity (frameNormal s)).sqNorm
          = Physics.friction ^ 2 * (tangential s.velocity (frameNormal s)).sqNorm ∧
      (tangential (update Physics inp dt s).velocity (frameNormal s)).sqNorm
          ≤ (tangential s.velocity (frameNormal s)).sqNorm) ∧
    (¬ (inp.moveX = 0 ∧ inp.moveZ = 0) →
      (update Physics inp dt s).velocity
        = cancelRadial (frameNormal s)
            (velAfterGravity Physics dt (frameNormal s) s.velocity)) := by
  have hsq : (frameNormal s).sqNorm = 1 := Vec3.norm_eq_one_iff.mp hn
  rw [update_of_le hb]
  constructor
  · intro hz
    have hv : applyFriction Physics inp (cancelRadial (frameNormal s)
        (velAfterGravity Physics dt (frameNormal s) s.velocity))
        = Physics.friction • cancelRadial (frameNormal s)
            (velAfterGravity Physics dt (frameNormal s) s.velocity) := by
      unfold applyFriction
      rw [if_pos hz]
    have htan : tangential (cancelRadial (frameNormal s)
        (velAfterGravity Physics dt (frameNormal s) s.velocity)) (frameNormal s)
        = tangential s.velocity (frameNormal s) := by
      rw [tangential_cancelRadial hsq, tangential_velAfterGravity hsq]
    have heq : (tangential (applyFriction Physics inp (cancelRadial (frameNormal s)
        (velAfterGravity Physics dt (frameNormal s) s.velocity))) (frameNormal s)).sqNorm
        = Physics.friction ^ 2 * (tangential s.velocity (frameNormal s)).sqNorm := by
      rw [hv, tangential_smul, Vec3.sqNorm_smul, htan]
    refine ⟨heq, ?_⟩
    rw [heq]
    have h0 := Vec3.sqNorm_nonneg (tangential s.velocity (frameNormal s))
    have hf : Physics.friction ^ 2 ≤ 1 := by norm_num [Physics]
    nlinarith
  · intro hnz
    show applyFriction Physics inp _ = _
    unfold applyFriction
    rw [if_neg hnz]

/-- Witness for C7: a grounded idle frame at (0, 33, 0) with tangential
velocity (1, 0, 0) and dt = 1/100 stays in the grounded branch and the
squared tangential speed shrinks by exactly FRICTION^2. -/
theorem friction_decay_witness :
    (tangential (update Physics idleInput (1 / 100)
        ⟨⟨0, 33, 0⟩, ⟨1, 0, 0⟩, true, 0, 0, ⟨0, 33, 0⟩, NormalCache.empty⟩).velocity
      (frameNormal ⟨⟨0, 33, 0⟩, ⟨1, 0, 0⟩, true, 0, 0, ⟨0, 33, 0⟩, NormalCache.empty⟩)).sqNorm
      = Physics.friction ^ 2 *
        (tangential (Vec3.mk 1 0 0)
          (frameNormal ⟨⟨0, 33, 0⟩, ⟨1, 0, 0⟩, true, 0, 0, ⟨0, 33, 0⟩,
            NormalCache.empty⟩)).sqNorm := by
  have hfn : frameNormal ⟨⟨0, 33, 0⟩, ⟨1, 0, 0⟩, true, 0, 0, ⟨0, 33, 0⟩, NormalCache.empty⟩
      = ⟨0, 1, 0⟩ := by
    rw [frameNormal_of_empty rfl]
    exact Vec3.normalized_axisY (by norm_num)
  have hint : integratedPos Physics idleInput (1 / 100)
      ⟨⟨0, 33, 0⟩, ⟨1, 0, 0⟩, true, 0, 0, ⟨0, 33, 0⟩, NormalCache.empty⟩
      = ⟨1 / 100, 13199 / 400, 0⟩ := by
    rw [integratedPos, hfn, moveAmount_idle, velAfterGravity_eq]
    ext <;> simp [Physics]
    norm_num
  have hb : (integratedPos Physics idleInput (1 / 100)
      ⟨⟨0, 33, 0⟩, ⟨1, 0, 0⟩, true, 0, 0, ⟨0, 33, 0⟩, NormalCache.empty⟩).norm
      ≤ targetDistance Physics := by
    rw [hint, show targetDistance Physics = 33 by norm_num [targetDistance, Physics]]
    rw [Vec3.norm_le_iff (by norm_num)]
    unfold Vec3.sqNorm
    norm_num
  exact ((friction_decay idleInput (1 / 100)
    ⟨⟨0, 33, 0⟩, ⟨1, 0, 0⟩, true, 0, 0, ⟨0, 33, 0⟩, NormalCache.empty⟩
    (by rw [hfn]; exact Vec3.norm_eq_of_sq (by norm_num) (by unfold Vec3.sqNorm; norm_num))
    hb).1 ⟨rfl, rfl⟩).1

/-- C8: `jump` called on a state with `grounded = false` returns the state
unchanged in every field (velocity, position, grounded flag, rotation,
camera pitch and even the normal cache, since the surface-normal query
sits inside the grounded branch). -/
theorem jump_airborne_noop (cfg : Config) (s : PlayerState)
    (h : s.grounded = false) : jump cfg s = s := by
  unfold jump
  rw [h]
  simp

/-- Witness for C8 at a concrete airborne state. -/
theorem jump_airborne_noop_witness :
    jump Physics
      ⟨⟨0, 40, 0⟩, ⟨1, 2, 3⟩, false, ⟨0, 5, 0⟩, 7, ⟨0, 34, 0⟩, NormalCache.empty⟩ =
      ⟨⟨0, 40, 0⟩, ⟨1, 2, 3⟩, false, ⟨0, 5, 0⟩, 7, ⟨0, 34, 0⟩, NormalCache.empty⟩ :=
  jump_airborne_noop Physics _ rfl

/-- C9 counterexample: constructing the controller with a configuration the
spec calls invalid (radius -1, height -2) does not fail: `init` returns the
ordinary fully-initialized state, and `update` then happily simulates a
frame with it (one idle frame of gravity from (0, 34, 0) moves the avatar
to (0, 9, 0), not grounded).  No construction-time validation exists
anywhere in `SphericalPlayer.__init__`. -/
theorem init_invalid_config_counterexample :
    init badConfig ⟨0, 34, 0⟩ =
      ⟨⟨0, 34, 0⟩, 0, false, 0, 0, ⟨0, 34, 0⟩, NormalCache.empty⟩ ∧
    (update badConfig idleInput 1 (init badConfig ⟨0, 34, 0⟩)).position = ⟨0, 9, 0⟩ ∧
    (update badConfig idleInput 1 (init badConfig ⟨0, 34, 0⟩)).grounded = false := by
  refine ⟨rfl, ?_⟩
  have hfn : frameNormal (init badConfig ⟨0, 34, 0⟩) = ⟨0, 1, 0⟩ := by
    rw [frameNormal_of_empty rfl]
    exact Vec3.normalized_axisY (by norm_num)
  have hint : integratedPos badConfig idleInput 1 (init badConfig ⟨0, 34, 0⟩)
      = ⟨0, 9, 0⟩ := by
    rw [integratedPos, hfn, moveAmount_idle]
    show (⟨0, 34, 0⟩ : Vec3) + _ = _
    rw [velAfterGravity]
    ext <;> simp [init, badConfig, Physics]
    norm_num
  have hnorm : (integratedPos badConfig idleInput 1 (init badConfig ⟨0, 34, 0⟩)).norm
      = 9 := by
    rw [hint]
    exact Vec3.norm_eq_of_sq (by norm_num) (by unfold Vec3.sqNorm; norm_num)
  have hgt : ¬ (integratedPos badConfig idleInput 1
      (init badConfig ⟨0, 34, 0⟩)).norm ≤ targetDistance badConfig := by
    rw [hnorm]
    simp [targetDistance, badConfig, Physics]
    norm_num
  rw [update_of_gt hgt]
  exact ⟨hint, rfl⟩

/-- C9 amended: construction never fails and performs no validation: for
every configuration, valid or not, `init` returns the normally-initialized
controller state (spawn position recorded, zero velocity, not grounded,
zero rotation and pitch, empty cache). -/
theorem init_total_no_validation (cfg : Config) (spawn : Vec3) :
    init cfg spawn =
      { position := spawn, velocity := 0, grounded := false, rotation := 0,
        pitch := 0, startPos := spawn, cache := NormalCache.empty } := rfl

end

end B3313
